import Mathlib

/-!
Shallow embedding of the `chisel` CLI core (src/chisel/src/main.rs):
configuration resolution (`ChiselContext::from_ruleset`), module dispatch
(`execute_module`), execution aggregation (`chisel_execute`) and the
run-level exit-code logic (`chisel_subcommand_run` / `err_exit`).

External collaborators (the YAML parser, the filesystem, the wasm decoder
and the libchisel validation capabilities) are modelled as parameters:
the parsed YAML document is an inductive `Value` tree mirroring
`serde_yaml::Value`, the filesystem and decoder are functions in an `Env`,
and the capability constructors live in a `Caps` record.  Printing via
`println!` is modelled by returning the list of printed lines alongside
the result.
-/

set_option autoImplicit false

namespace Chisel

/-- Mirror of `serde_yaml::Value`: the generic document tree.  `vmapping`
keeps entries in document (insertion) order, as `serde_yaml`'s
linked-hash-map backed `Mapping` does. -/
inductive Value where
  | vnull
  | vbool (b : Bool)
  | vnumber (n : Int)
  | vstring (s : String)
  | vsequence (items : List Value)
  | vmapping (entries : List (Value × Value))

/-- Closed enumeration of the error-message constants of main.rs. -/
inductive ChiselError where
  | configOpenFailed
  | configParseFailed
  | configInvalid
  | configMissingFile
  | fileTypeMismatch
  | moduleTypeMismatch
  | presetTypeMismatch
  | binaryOpenFailed
  | artifactDecodeFailed
deriving DecidableEq, Repr

/-- The apostrophe character used in several printed messages. -/
def quoteChar : String := String.singleton (Char.ofNat 39)

/-- Display text of each error constant (the `ERR_*` statics). -/
def errMessage : ChiselError → String
  | ChiselError.configOpenFailed => "Failed to open configuration file."
  | ChiselError.configParseFailed => "Failed to parse configuration file."
  | ChiselError.configInvalid => "Config is invalid."
  | ChiselError.configMissingFile => "Config missing file path to chisel."
  | ChiselError.fileTypeMismatch =>
      "Entry " ++ quoteChar ++ "file" ++ quoteChar ++ " does not map to a string."
  | ChiselError.moduleTypeMismatch =>
      "An entry " ++ quoteChar ++ "module" ++ quoteChar ++ " does not point to a key-value map."
  | ChiselError.presetTypeMismatch =>
      "A field " ++ quoteChar ++ "preset" ++ quoteChar ++ " belonging to a module is not a string"
  | ChiselError.binaryOpenFailed => "Failed to open wasm binary."
  | ChiselError.artifactDecodeFailed => "Failed to deserialize the wasm binary."

/-- Mirror of `struct ModuleContext`: one configured check, with the
declared preset kept as `none` when absent (never defaulted at parse
time). -/
structure ModuleContext where
  module_name : String
  preset : Option String
deriving DecidableEq, Repr

/-- Mirror of `struct ChiselContext`: target file plus the configured
modules in document order. -/
structure ChiselContext where
  file : String
  modules : List ModuleContext
deriving DecidableEq, Repr

/-- `Mapping::get(&Value::String(key))`: first entry whose key equals the
string `key` (map keys are unique, so first-match lookup agrees with the
hash-map lookup of the source). -/
def mapGetStr : List (Value × Value) → String → Option Value
  | [], _ => none
  | (Value.vstring s, v) :: rest, key =>
      if s = key then some v else mapGetStr rest key
  | _ :: rest, key => mapGetStr rest key

/-- `Mapping::remove(&Value::String(key))`: drop the entry whose key
equals the string `key`, preserving the order of the rest. -/
def removeStr : List (Value × Value) → String → List (Value × Value)
  | [], _ => []
  | (Value.vstring s, v) :: rest, key =>
      if s = key then rest else (Value.vstring s, v) :: removeStr rest key
  | p :: rest, key => p :: removeStr rest key

/-- The predicate of the `rules.iter().find(...)` closure: a top-level
entry is ruleset-shaped when its key is a string and its value a
mapping. -/
def rulesetShaped : Value × Value → Bool
  | (Value.vstring _, Value.vmapping _) => true
  | _ => false

/-- `rules.iter().find(...)` specialised to the ruleset shape: the first
ruleset-shaped entry, returning its body mapping. -/
def findRuleset : List (Value × Value) → Option (List (Value × Value))
  | [] => none
  | (Value.vstring _, Value.vmapping m) :: _ => some m
  | _ :: rest => findRuleset rest

/-- Reading a module's optional `"preset"` flag: present non-string is
`PresetTypeMismatch`, absent stays absent. -/
def parse_preset (modConfig : List (Value × Value)) : Except ChiselError (Option String) :=
  match mapGetStr modConfig "preset" with
  | some (Value.vstring s) => Except.ok (some s)
  | some _ => Except.error ChiselError.presetTypeMismatch
  | none => Except.ok none

/-- The `println!("Loaded module '{}' with preset '{}'", ...)` line. -/
def loadedLine (modName : String) (preset : Option String) : String :=
  "Loaded module " ++ quoteChar ++ modName ++ quoteChar ++ " with preset "
    ++ quoteChar ++ preset.getD "None" ++ quoteChar

/-- The `while let Some(module) = config_itr.next()` loop of
`from_ruleset`: each entry must be string-keyed with a mapping body, else
`ModuleTypeMismatch`; second component is the printed lines. -/
def parse_modules : List (Value × Value) → Except ChiselError (List ModuleContext) × List String
  | [] => (Except.ok [], [])
  | (Value.vstring modName, Value.vmapping modConfig) :: rest =>
      (match parse_preset modConfig with
       | Except.error e => (Except.error e, [])
       | Except.ok pres =>
         match parse_modules rest with
         | (Except.ok ms, lines) =>
             (Except.ok ({ module_name := modName, preset := pres } :: ms),
              loadedLine modName pres :: lines)
         | (Except.error e, lines) => (Except.error e, loadedLine modName pres :: lines))
  | _ :: _ => (Except.error ChiselError.moduleTypeMismatch, [])

/-- Body of `from_ruleset` once the ruleset mapping is selected: the
`"file"` entry must exist (`ConfigMissingFile`) and be a string
(`FileTypeMismatch`); then the remaining entries are the modules. -/
def parse_config (config : List (Value × Value)) : Except ChiselError ChiselContext × List String :=
  match mapGetStr config "file" with
  | none => (Except.error ChiselError.configMissingFile, [])
  | some (Value.vstring path) =>
      (match parse_modules (removeStr config "file") with
       | (Except.ok ms, lines) =>
           (Except.ok { file := path, modules := ms }, ("Using file: " ++ path) :: lines)
       | (Except.error e, lines) => (Except.error e, ("Using file: " ++ path) :: lines))
  | some _ => (Except.error ChiselError.fileTypeMismatch, [])

/-- `ChiselContext::from_ruleset`: non-mapping root or a mapping without a
ruleset-shaped entry is `ConfigInvalid`; otherwise the first
ruleset-shaped entry is processed. -/
def from_ruleset (ruleset : Value) : Except ChiselError ChiselContext × List String :=
  match ruleset with
  | Value.vmapping rules =>
      (match findRuleset rules with
       | some config => parse_config config
       | none => (Except.error ChiselError.configInvalid, []))
  | _ => (Except.error ChiselError.configInvalid, [])

/-- The libchisel validation capabilities (external collaborators), over
an abstract artifact type `M`.  A constructor returns `none` on
construction failure (unrecognized preset); a constructed capability's
`validate` returns `none` on internal validation failure (the source
applies `unwrap_or(false)` to it). -/
structure Caps (M : Type) where
  verifyExportsWithPreset : String → Option (M → Option Bool)
  verifyImportsWithPreset : String → Option (M → Option Bool)
  checkStartFuncNew : Bool → (M → Option Bool)

/-- The `conf_preset.clone().unwrap_or(String::from("ewasm"))` step of
`execute_module`. -/
def effective_preset (preset : Option String) : String :=
  preset.getD "ewasm"

/-- The `"verifyexports"` dispatch arm: construct `VerifyExports` with the
preset, `false` on construction failure, else the validation result with
`unwrap_or(false)`. -/
def verify_exports_verdict {M : Type} (caps : Caps M) (preset : String) (module : M) : Bool :=
  match caps.verifyExportsWithPreset preset with
  | some chisel => (chisel module).getD false
  | none => false

/-- The `"checkstartfunc"` dispatch arm: `CheckStartFunc::new(false)`
applied to the artifact, with `unwrap_or(false)`. -/
def check_start_verdict {M : Type} (caps : Caps M) (module : M) : Bool :=
  (caps.checkStartFuncNew false module).getD false

/-- `execute_module` of main.rs.  Note: the source routes the
`"verifyimports"` arm through `VerifyExports::with_preset`, i.e. the same
export-verification capability as the `"verifyexports"` arm. -/
def execute_module {M : Type} (caps : Caps M) (context : ModuleContext) (module : M) : Bool :=
  let preset := effective_preset context.preset
  if context.module_name = "verifyexports" then verify_exports_verdict caps preset module
  else if context.module_name = "verifyimports" then verify_exports_verdict caps preset module
  else if context.module_name = "checkstartfunc" then check_start_verdict caps module
  else false

/-- The `.map(|ctx| execute_module(ctx, &module))` step of
`chisel_execute`: one verdict per configured module, in order. -/
def module_results {M : Type} (caps : Caps M) (modules : List ModuleContext) (module : M) : List Bool :=
  modules.map fun ctx => execute_module caps ctx module

/-- The `.fold(true, |b, e| e & b)` step of `chisel_execute`. -/
def aggregate_results (results : List Bool) : Bool :=
  results.foldl (fun b e => e && b) true

/-- The external world of one run: the filesystem (`std::fs::read`), the
wasm decoder (`parity_wasm::deserialize_buffer`) and the capability set. -/
structure Env (M : Type) where
  readFile : String → Option (List Nat)
  deserialize : List Nat → Option M
  caps : Caps M

/-- `chisel_execute` of main.rs: read the target file
(`BinaryOpenFailed` on failure), decode it (`ArtifactDecodeFailed` on
failure), then fold the per-module verdicts. -/
def chisel_execute {M : Type} (env : Env M) (context : ChiselContext) : Except ChiselError Bool :=
  match env.readFile context.file with
  | none => Except.error ChiselError.binaryOpenFailed
  | some buffer =>
      match env.deserialize buffer with
      | none => Except.error ChiselError.artifactDecodeFailed
      | some module =>
          Except.ok (aggregate_results (module_results env.caps context.modules module))

/-- `crate_name!()`: the package name from the crate manifest. -/
def crateName : String := "chisel"

/-- The line printed by `err_exit` before `process::exit(-1)`. -/
def err_line (e : ChiselError) : String :=
  crateName ++ ": " ++ errMessage e

/-- One `run` invocation from the parsed configuration document onward
(`chisel_subcommand_run` composed with `main`'s `process::exit`): `doc` is
the YAML parse result (`none` = parse failure).  Returns the process exit
code and every line printed, in order; `err_exit` exits with code `-1`. -/
def chisel_run {M : Type} (env : Env M) (doc : Option Value) : Int × List String :=
  match doc with
  | none => (-1, [err_line ChiselError.configParseFailed])
  | some ruleset =>
      match from_ruleset ruleset with
      | (Except.error e, lines) => (-1, lines ++ [err_line e])
      | (Except.ok ctx, lines) =>
          match chisel_execute env ctx with
          | Except.error e => (-1, lines ++ [err_line e])
          | Except.ok result => (if result then 0 else 1, lines)

/-- Discriminator for string nodes (`Value::is_string` /
`Value::as_str().is_some()`). -/
def Value.isString : Value → Bool
  | Value.vstring _ => true
  | _ => false

/-! Concrete fixtures used to evaluate the development at specific
inputs. -/

/-- A capability set over a trivial artifact where every capability
constructs successfully and validates to `true`. -/
def capsTrue : Caps Unit :=
  { verifyExportsWithPreset := fun _ => some fun _ => some true
    verifyImportsWithPreset := fun _ => some fun _ => some true
    checkStartFuncNew := fun _ => fun _ => some true }

/-- Same as `capsTrue` except that the import-verification capability
validates to `false`. -/
def capsImportFalse : Caps Unit :=
  { verifyExportsWithPreset := fun _ => some fun _ => some true
    verifyImportsWithPreset := fun _ => some fun _ => some false
    checkStartFuncNew := fun _ => fun _ => some true }

/-- Environment where reading and decoding succeed and every check
passes. -/
def envTrue : Env Unit :=
  { readFile := fun _ => some [], deserialize := fun _ => some (), caps := capsTrue }

/-- Environment where reading the binary fails. -/
def envNoFile : Env Unit :=
  { readFile := fun _ => none, deserialize := fun _ => some (), caps := capsTrue }

/-- Environment where the binary reads but fails to decode. -/
def envBadDecode : Env Unit :=
  { readFile := fun _ => some [], deserialize := fun _ => none, caps := capsTrue }

/-- Top-level entries of a document whose ruleset declares `file: ""`. -/
def rulesEmptyFile : List (Value × Value) :=
  [(Value.vstring "suite",
    Value.vmapping [(Value.vstring "file", Value.vstring "")])]

/-- Document whose ruleset declares `file: ""` and no modules. -/
def docEmptyFile : Value := Value.vmapping rulesEmptyFile

/-- Document with one module, `verifyexports`, with no declared preset. -/
def docOneModule : Value :=
  Value.vmapping
    [(Value.vstring "suite",
      Value.vmapping
        [(Value.vstring "file", Value.vstring "a.wasm"),
         (Value.vstring "verifyexports", Value.vmapping [])])]

/-- Document with an unrecognized check followed by a recognized one. -/
def docUnknownThenKnown : Value :=
  Value.vmapping
    [(Value.vstring "suite",
      Value.vmapping
        [(Value.vstring "file", Value.vstring "a.wasm"),
         (Value.vstring "unknowncheck", Value.vmapping []),
         (Value.vstring "verifyexports", Value.vmapping [])])]

/-! Helper lemmas. -/

/-- Folding `e & b` from `true` is the conjunction of the list. -/
theorem foldl_and_acc (rs : List Bool) :
    ∀ acc : Bool, rs.foldl (fun b e => e && b) acc = ((rs.all fun x => x) && acc) := by
  induction rs with
  | nil => intro acc; simp
  | cons a l ih =>
      intro acc
      rw [List.foldl_cons, ih, List.all_cons]
      cases a <;> cases acc <;> simp

/-- `aggregate_results` is the AND-reduction of the verdict list. -/
theorem aggregate_results_eq_all (rs : List Bool) :
    aggregate_results rs = rs.all fun x => x := by
  unfold aggregate_results
  rw [foldl_and_acc rs true, Bool.and_true]

/-- A non-ruleset-shaped head does not affect the search for the first
ruleset-shaped entry. -/
theorem findRuleset_cons_not_shaped (p : Value × Value) (h : rulesetShaped p = false)
    (l : List (Value × Value)) : findRuleset (p :: l) = findRuleset l := by
  obtain ⟨k, v⟩ := p
  cases k <;> cases v <;> simp_all [findRuleset, rulesetShaped]

/-- The search fails exactly when no entry is ruleset-shaped. -/
theorem findRuleset_eq_none_iff (rules : List (Value × Value)) :
    findRuleset rules = none ↔ ∀ p ∈ rules, rulesetShaped p = false := by
  induction rules with
  | nil => simp [findRuleset]
  | cons p rest ih =>
      obtain ⟨k, v⟩ := p
      cases k <;> cases v <;> simp_all [findRuleset, rulesetShaped]

/-- The first ruleset-shaped entry is found after any unshaped prefix,
regardless of what follows it. -/
theorem findRuleset_append (pre : List (Value × Value))
    (h : ∀ p ∈ pre, rulesetShaped p = false) (s : String)
    (config rest : List (Value × Value)) :
    findRuleset (pre ++ (Value.vstring s, Value.vmapping config) :: rest) = some config := by
  induction pre with
  | nil => simp [findRuleset]
  | cons p pre ih =>
      rw [List.cons_append, findRuleset_cons_not_shaped p (h p (by simp))]
      exact ih fun q hq => h q (by simp [hq])

/-- `parse_preset` can only fail with `PresetTypeMismatch`. -/
theorem parse_preset_error (modConfig : List (Value × Value)) (e : ChiselError)
    (h : parse_preset modConfig = Except.error e) : e = ChiselError.presetTypeMismatch := by
  rw [parse_preset] at h
  rcases hv : mapGetStr modConfig "preset" with _ | v
  · rw [hv] at h; exact absurd h (by simp)
  · rw [hv] at h; cases v <;> simp_all

/-- `parse_modules` can only fail with `ModuleTypeMismatch` or
`PresetTypeMismatch`. -/
theorem parse_modules_error (entries : List (Value × Value)) :
    ∀ (e : ChiselError) (lines : List String),
      parse_modules entries = (Except.error e, lines) →
      e = ChiselError.moduleTypeMismatch ∨ e = ChiselError.presetTypeMismatch := by
  induction entries with
  | nil => intro e lines h; exact absurd h (by simp [parse_modules])
  | cons p rest ih =>
      intro e lines h
      obtain ⟨k, v⟩ := p
      cases k <;> cases v
      case vstring.vmapping n mc =>
        simp only [parse_modules] at h
        rcases hp : parse_preset mc with ep | pres
        · rw [hp] at h
          simp only [Prod.mk.injEq, Except.error.injEq] at h
          exact Or.inr (h.1 ▸ parse_preset_error mc ep hp)
        · rw [hp] at h
          rcases hr : parse_modules rest with ⟨res, lns⟩
          rw [hr] at h
          cases res with
          | ok ms => simp at h
          | error e2 =>
              simp only [Prod.mk.injEq, Except.error.injEq] at h
              exact h.1 ▸ ih e2 lns hr
      all_goals
        simp only [parse_modules, Prod.mk.injEq] at h
      all_goals
        exact Or.inl (Except.error.inj h.1).symm


/-- On success, `parse_modules` prints exactly one `Loaded module` line
per parsed module, in order. -/
theorem parse_modules_lines : ∀ (entries : List (Value × Value)) (ms : List ModuleContext)
    (lines : List String), parse_modules entries = (Except.ok ms, lines) →
    lines = ms.map fun c => loadedLine c.module_name c.preset := by
  intro entries
  induction entries with
  | nil =>
      intro ms lines h
      simp only [parse_modules, Prod.mk.injEq, Except.ok.injEq] at h
      simp [← h.1, ← h.2]
  | cons p rest ih =>
      intro ms lines h
      obtain ⟨k, v⟩ := p
      cases k <;> cases v
      case vstring.vmapping n mc =>
        simp only [parse_modules] at h
        rcases hp : parse_preset mc with ep | pres
        · rw [hp] at h; simp at h
        · rw [hp] at h
          rcases hr : parse_modules rest with ⟨res, lns⟩
          rw [hr] at h
          cases res with
          | error e2 => simp at h
          | ok ms2 =>
              simp only [Prod.mk.injEq, Except.ok.injEq] at h
              rw [← h.1, ← h.2, List.map_cons]
              exact congrArg _ (ih ms2 lns hr)
      all_goals simp only [parse_modules] at h
      all_goals simp at h

/-!  Claim theorems. -/

/-- Claim C1: the claim (and the spec, which flags the source behavior as
a defect) requires `"verifyimports"` to dispatch to an import-verification
capability.  The code instead routes it through the export-verification
capability: first, the `"verifyimports"` arm returns exactly the
export-capability verdict; second, the dispatcher's result never depends
on the import-verification capability at all. -/
theorem verifyimports_routed_to_export_capability :
    (∀ (M : Type) (caps : Caps M) (pres : Option String) (m : M),
      execute_module caps { module_name := "verifyimports", preset := pres } m
        = verify_exports_verdict caps (effective_preset pres) m)
    ∧ (∀ (M : Type) (capsA capsB : Caps M),
        capsA.verifyExportsWithPreset = capsB.verifyExportsWithPreset →
        capsA.checkStartFuncNew = capsB.checkStartFuncNew →
        ∀ (ctx : ModuleContext) (m : M),
          execute_module capsA ctx m = execute_module capsB ctx m) := by
  constructor
  · intro M caps pres m
    rfl
  · intro M capsA capsB h1 h2 ctx m
    simp only [execute_module, verify_exports_verdict, check_start_verdict, h1, h2]

/-- Witness for C1: with a set of capabilities whose import verifier
rejects but whose export verifier accepts, `"verifyimports"` still passes
— it is routed to the export verifier. -/
theorem verifyimports_routed_to_export_capability_witness :
    execute_module capsTrue { module_name := "verifyimports", preset := none } ()
      = verify_exports_verdict capsTrue (effective_preset none) ()
    ∧ execute_module capsTrue { module_name := "verifyimports", preset := none } ()
      = execute_module capsImportFalse { module_name := "verifyimports", preset := none } ()
    ∧ execute_module capsImportFalse { module_name := "verifyimports", preset := none } () = true :=
  ⟨verifyimports_routed_to_export_capability.1 Unit capsTrue none (),
   verifyimports_routed_to_export_capability.2 Unit capsTrue capsImportFalse rfl rfl
     { module_name := "verifyimports", preset := none } (),
   rfl⟩

/-- Counterexample to claim C3: the document `{suite: {file: ""}}`
resolves successfully, yet the resulting context's target file is the
empty string — resolution does not enforce non-emptiness. -/
theorem targetfile_can_be_empty :
    (from_ruleset docEmptyFile).1 = Except.ok { file := "", modules := [] } := rfl

/-- Claim C3 (amended): on successful resolution the target file is
exactly the string declared under the ruleset's `"file"` key — which may
itself be empty, so non-emptiness holds only when the declared string is
non-empty. -/
theorem targetfile_eq_declared_file :
    ∀ (rules : List (Value × Value)) (ctx : ChiselContext) (lines : List String),
      from_ruleset (Value.vmapping rules) = (Except.ok ctx, lines) →
      ∃ config, findRuleset rules = some config
        ∧ mapGetStr config "file" = some (Value.vstring ctx.file) := by
  intro rules ctx lines h
  simp only [from_ruleset] at h
  rcases hf : findRuleset rules with _ | config
  · rw [hf] at h; simp at h
  · rw [hf] at h
    refine ⟨config, rfl, ?_⟩
    simp only [parse_config] at h
    rcases hg : mapGetStr config "file" with _ | v
    · rw [hg] at h; simp at h
    · rw [hg] at h
      cases v <;> simp only at h <;> try simp at h
      case vstring path =>
        rcases hm : parse_modules (removeStr config "file") with ⟨res, lns⟩
        rw [hm] at h
        cases res with
        | error e => simp at h
        | ok ms =>
            simp only [Prod.mk.injEq, Except.ok.injEq] at h
            rw [← h.1]

/-- Witness for C3 (amended), at the `file: ""` document. -/
theorem targetfile_eq_declared_file_witness :
    ∃ config, findRuleset rulesEmptyFile = some config
      ∧ mapGetStr config "file"
          = some (Value.vstring ({ file := "", modules := [] } : ChiselContext).file) :=
  targetfile_eq_declared_file rulesEmptyFile { file := "", modules := [] }
    ["Using file: "] rfl

/-- Claim C10: a non-mapping root fails with the same `ConfigInvalid`
error as a mapping that contains no ruleset-shaped entry; no distinct
error kind separates the two cases. -/
theorem non_mapping_root_same_config_invalid :
    (∀ doc : Value, (∀ entries, doc ≠ Value.vmapping entries) →
      (from_ruleset doc).1 = Except.error ChiselError.configInvalid)
    ∧ (∀ rules : List (Value × Value), (∀ p ∈ rules, rulesetShaped p = false) →
      (from_ruleset (Value.vmapping rules)).1 = Except.error ChiselError.configInvalid) := by
  constructor
  · intro doc h
    cases doc with
    | vmapping entries => exact absurd rfl (h entries)
    | vnull => rfl
    | vbool b => rfl
    | vnumber n => rfl
    | vstring s => rfl
    | vsequence items => rfl
  · intro rules h
    simp only [from_ruleset, (findRuleset_eq_none_iff rules).mpr h]

/-- Witness for C10: a sequence root and a mapping whose only entry maps a
string to a string both yield `ConfigInvalid`. -/
theorem non_mapping_root_same_config_invalid_witness :
    (from_ruleset (Value.vsequence [])).1 = Except.error ChiselError.configInvalid
    ∧ (from_ruleset (Value.vmapping [(Value.vstring "a", Value.vstring "b")])).1
        = Except.error ChiselError.configInvalid :=
  ⟨non_mapping_root_same_config_invalid.1 (Value.vsequence []) (fun _ h => Value.noConfusion h),
   non_mapping_root_same_config_invalid.2 [(Value.vstring "a", Value.vstring "b")]
     (by intro p hp; simp at hp; rw [hp]; rfl)⟩

/-- Claim C4: resolution selects the first top-level entry whose key is a
string and whose value is a mapping; with no such entry it fails with
`ConfigInvalid`; and everything after the first ruleset-shaped entry is
irrelevant to the result. -/
theorem first_ruleset_selected_rest_ignored :
    (∀ (pre : List (Value × Value)) (s : String) (config rest : List (Value × Value)),
      (∀ p ∈ pre, rulesetShaped p = false) →
      findRuleset (pre ++ (Value.vstring s, Value.vmapping config) :: rest) = some config)
    ∧ (∀ rules : List (Value × Value), (∀ p ∈ rules, rulesetShaped p = false) →
      (from_ruleset (Value.vmapping rules)).1 = Except.error ChiselError.configInvalid)
    ∧ (∀ (pre : List (Value × Value)) (s : String) (config restA restB : List (Value × Value)),
      (∀ p ∈ pre, rulesetShaped p = false) →
      from_ruleset (Value.vmapping (pre ++ (Value.vstring s, Value.vmapping config) :: restA))
        = from_ruleset
            (Value.vmapping (pre ++ (Value.vstring s, Value.vmapping config) :: restB))) := by
  refine ⟨fun pre s config rest h => findRuleset_append pre h s config rest, ?_, ?_⟩
  · intro rules h
    simp only [from_ruleset, (findRuleset_eq_none_iff rules).mpr h]
  · intro pre s config restA restB h
    simp only [from_ruleset, findRuleset_append pre h s config]

/-- Witness for C4: with an unshaped entry first, the second entry is
selected, an entry-free document is invalid, and two documents differing
only after the selected ruleset resolve identically. -/
theorem first_ruleset_selected_rest_ignored_witness :
    findRuleset [(Value.vstring "x", Value.vstring "y"),
        (Value.vstring "suite", Value.vmapping [])]
      = some []
    ∧ (from_ruleset (Value.vmapping [])).1 = Except.error ChiselError.configInvalid
    ∧ from_ruleset (Value.vmapping
        [(Value.vstring "suite", Value.vmapping [(Value.vstring "file", Value.vstring "a")]),
         (Value.vstring "later", Value.vmapping [])])
      = from_ruleset (Value.vmapping
        [(Value.vstring "suite", Value.vmapping [(Value.vstring "file", Value.vstring "a")])]) :=
  ⟨first_ruleset_selected_rest_ignored.1 [(Value.vstring "x", Value.vstring "y")] "suite" [] []
      (by intro p hp; simp at hp; rw [hp]; rfl),
   first_ruleset_selected_rest_ignored.2.1 [] (by intro p hp; simp at hp),
   first_ruleset_selected_rest_ignored.2.2 [] "suite"
      [(Value.vstring "file", Value.vstring "a")]
      [(Value.vstring "later", Value.vmapping [])] [] (by intro p hp; simp at hp)⟩

/-- Claim C5: within the selected ruleset, `ConfigMissingFile` is raised
exactly when `"file"` is absent; a present non-string `"file"` raises
`FileTypeMismatch`; a string-valued `"file"` becomes the target path of
any successfully resolved context; and `from_ruleset` processes the
selected ruleset through exactly this logic. -/
theorem file_key_validation :
    (∀ config : List (Value × Value),
      ((parse_config config).1 = Except.error ChiselError.configMissingFile
        ↔ mapGetStr config "file" = none))
    ∧ (∀ (config : List (Value × Value)) (v : Value),
        mapGetStr config "file" = some v → v.isString = false →
        (parse_config config).1 = Except.error ChiselError.fileTypeMismatch)
    ∧ (∀ (config : List (Value × Value)) (s : String) (ctx : ChiselContext)
          (lines : List String),
        mapGetStr config "file" = some (Value.vstring s) →
        parse_config config = (Except.ok ctx, lines) → ctx.file = s)
    ∧ (∀ (rules config : List (Value × Value)), findRuleset rules = some config →
        from_ruleset (Value.vmapping rules) = parse_config config) := by
  refine ⟨?_, ?_, ?_, ?_⟩
  · intro config
    constructor
    · intro h
      rcases hg : mapGetStr config "file" with _ | v
      · rfl
      · exfalso
        simp only [parse_config, hg] at h
        cases v <;> simp only at h <;> try simp at h
        case vstring path =>
          rcases hm : parse_modules (removeStr config "file") with ⟨res, lns⟩
          rw [hm] at h
          cases res with
          | ok ms => simp at h
          | error e =>
              simp only [Except.error.injEq] at h
              rcases parse_modules_error (removeStr config "file") e lns hm with h2 | h2 <;>
                simp [h2] at h
    · intro h
      simp [parse_config, h]
  · intro config v hg hv
    simp only [parse_config, hg]
    cases v <;> simp_all [Value.isString]
  · intro config s ctx lines hg h
    simp only [parse_config, hg] at h
    rcases hm : parse_modules (removeStr config "file") with ⟨res, lns⟩
    rw [hm] at h
    cases res with
    | error e => simp at h
    | ok ms =>
        simp only [Prod.mk.injEq, Except.ok.injEq] at h
        rw [← h.1]
  · intro rules config hf
    simp only [from_ruleset, hf]

/-- Witness for C5: a ruleset without `"file"` is missing the file, a
numeric `"file"` mismatches, and `file: "a.wasm"` becomes the target. -/
theorem file_key_validation_witness :
    (parse_config [(Value.vstring "unexpectedfield", Value.vmapping [])]).1
      = Except.error ChiselError.configMissingFile
    ∧ (parse_config [(Value.vstring "file", Value.vnumber 3)]).1
      = Except.error ChiselError.fileTypeMismatch
    ∧ ({ file := "a.wasm", modules := [] } : ChiselContext).file = "a.wasm"
    ∧ from_ruleset (Value.vmapping [(Value.vstring "suite", Value.vmapping [])])
      = parse_config [] :=
  ⟨(file_key_validation.1 [(Value.vstring "unexpectedfield", Value.vmapping [])]).mpr rfl,
   file_key_validation.2.1 [(Value.vstring "file", Value.vnumber 3)] (Value.vnumber 3) rfl rfl,
   file_key_validation.2.2.1 [(Value.vstring "file", Value.vstring "a.wasm")] "a.wasm"
     { file := "a.wasm", modules := [] } ["Using file: a.wasm"] rfl rfl,
   file_key_validation.2.2.2 [(Value.vstring "suite", Value.vmapping [])] [] rfl⟩

/-- Claim C6: the effective preset is the declared string, or the literal
`"ewasm"` only when the preset is absent; parsing keeps an absent preset
distinct from a declared empty one, and a module declared with preset `""`
is dispatched with effective preset `""`, not `"ewasm"`. -/
theorem preset_resolution :
    (∀ p : String, effective_preset (some p) = p)
    ∧ effective_preset none = "ewasm"
    ∧ effective_preset (some "") = ""
    ∧ (∀ modConfig : List (Value × Value),
        mapGetStr modConfig "preset" = some (Value.vstring "") →
        parse_preset modConfig = Except.ok (some ""))
    ∧ (∀ modConfig : List (Value × Value),
        mapGetStr modConfig "preset" = none → parse_preset modConfig = Except.ok none)
    ∧ (∀ (M : Type) (caps : Caps M) (m : M),
        execute_module caps { module_name := "verifyexports", preset := some "" } m
          = verify_exports_verdict caps "" m) := by
  refine ⟨fun p => rfl, rfl, rfl, ?_, ?_, fun M caps m => rfl⟩
  · intro modConfig h
    simp [parse_preset, h]
  · intro modConfig h
    simp [parse_preset, h]

/-- Witness for C6: a module body declaring `preset: ""` parses to the
declared empty preset and one without `preset` parses to the absent
state. -/
theorem preset_resolution_witness :
    effective_preset (some "custom") = "custom"
    ∧ parse_preset [(Value.vstring "preset", Value.vstring "")] = Except.ok (some "")
    ∧ parse_preset [] = Except.ok none
    ∧ execute_module capsTrue { module_name := "verifyexports", preset := some "" } ()
        = verify_exports_verdict capsTrue "" () :=
  ⟨preset_resolution.1 "custom",
   preset_resolution.2.2.2.1 [(Value.vstring "preset", Value.vstring "")] rfl,
   preset_resolution.2.2.2.2.1 [] rfl,
   preset_resolution.2.2.2.2.2 Unit capsTrue ()⟩

/-- Claim C7: an unrecognized check name yields verdict `false` with no
error; verdict collection distributes over the module list (so modules
after the unrecognized one are still executed); and once the binary is
read and decoded the run always completes with an aggregate result. -/
theorem unknown_name_silent_degrade :
    (∀ (M : Type) (caps : Caps M) (name : String) (pres : Option String) (m : M),
      name ≠ "verifyexports" → name ≠ "verifyimports" → name ≠ "checkstartfunc" →
      execute_module caps { module_name := name, preset := pres } m = false)
    ∧ (∀ (M : Type) (caps : Caps M) (msA msB : List ModuleContext) (m : M),
      module_results caps (msA ++ msB) m
        = module_results caps msA m ++ module_results caps msB m)
    ∧ (∀ (M : Type) (env : Env M) (ctx : ChiselContext) (buffer : List Nat) (md : M),
      env.readFile ctx.file = some buffer → env.deserialize buffer = some md →
      chisel_execute env ctx
        = Except.ok (aggregate_results (module_results env.caps ctx.modules md))) := by
  refine ⟨?_, ?_, ?_⟩
  · intro M caps name pres m h1 h2 h3
    simp [execute_module, h1, h2, h3]
  · intro M caps msA msB m
    simp [module_results]
  · intro M env ctx buffer md h1 h2
    simp [chisel_execute, h1, h2]

/-- Witness for C7: `unknowncheck` yields `false`, and a run containing it
still executes the `verifyexports` module after it and completes. -/
theorem unknown_name_silent_degrade_witness :
    execute_module capsTrue { module_name := "unknowncheck", preset := none } () = false
    ∧ module_results capsTrue
        ([{ module_name := "unknowncheck", preset := none }]
          ++ [{ module_name := "verifyexports", preset := none }]) ()
      = module_results capsTrue [{ module_name := "unknowncheck", preset := none }] ()
        ++ module_results capsTrue [{ module_name := "verifyexports", preset := none }] ()
    ∧ chisel_execute envTrue
        { file := "a.wasm",
          modules := [{ module_name := "unknowncheck", preset := none },
                      { module_name := "verifyexports", preset := none }] }
      = Except.ok (aggregate_results (module_results capsTrue
          [{ module_name := "unknowncheck", preset := none },
           { module_name := "verifyexports", preset := none }] ())) :=
  ⟨unknown_name_silent_degrade.1 Unit capsTrue "unknowncheck" none ()
     (by decide) (by decide) (by decide),
   unknown_name_silent_degrade.2.1 Unit capsTrue
     [{ module_name := "unknowncheck", preset := none }]
     [{ module_name := "verifyexports", preset := none }] (),
   unknown_name_silent_degrade.2.2 Unit envTrue
     { file := "a.wasm",
       modules := [{ module_name := "unknowncheck", preset := none },
                   { module_name := "verifyexports", preset := none }] } [] () rfl rfl⟩

/-- Claim C8: a failed read yields `BinaryOpenFailed` and a failed decode
`ArtifactDecodeFailed`, in both cases for every module list alike (no
module is executed); and any execution error makes the run exit with the
distinguished code `-1` after appending the single
`program-name: message` line to the output. -/
theorem io_and_decode_errors_abort :
    (∀ (M : Type) (env : Env M) (f : String) (modules : List ModuleContext),
      env.readFile f = none →
      chisel_execute env { file := f, modules := modules }
        = Except.error ChiselError.binaryOpenFailed)
    ∧ (∀ (M : Type) (env : Env M) (f : String) (modules : List ModuleContext)
          (buffer : List Nat),
      env.readFile f = some buffer → env.deserialize buffer = none →
      chisel_execute env { file := f, modules := modules }
        = Except.error ChiselError.artifactDecodeFailed)
    ∧ (∀ (M : Type) (env : Env M) (doc : Value) (ctx : ChiselContext)
          (lines : List String) (e : ChiselError),
      from_ruleset doc = (Except.ok ctx, lines) →
      chisel_execute env ctx = Except.error e →
      chisel_run env (some doc) = (-1, lines ++ [err_line e])) := by
  refine ⟨?_, ?_, ?_⟩
  · intro M env f modules h
    simp [chisel_execute, h]
  · intro M env f modules buffer h1 h2
    simp [chisel_execute, h1, h2]
  · intro M env doc ctx lines e h1 h2
    simp [chisel_run, h1, h2]

/-- Witness for C8, on the `file: ""` document: an unreadable binary
aborts with `BinaryOpenFailed` and the run prints
`chisel: Failed to open wasm binary.` and exits `-1`; an undecodable
binary aborts with `ArtifactDecodeFailed`. -/
theorem io_and_decode_errors_abort_witness :
    chisel_execute envNoFile { file := "", modules := [] }
      = Except.error ChiselError.binaryOpenFailed
    ∧ chisel_execute envBadDecode { file := "", modules := [] }
      = Except.error ChiselError.artifactDecodeFailed
    ∧ chisel_run envNoFile (some docEmptyFile)
      = (-1, ["Using file: "] ++ [err_line ChiselError.binaryOpenFailed]) :=
  ⟨io_and_decode_errors_abort.1 Unit envNoFile "" [] rfl,
   io_and_decode_errors_abort.2.1 Unit envBadDecode "" [] [] rfl rfl,
   io_and_decode_errors_abort.2.2 Unit envNoFile docEmptyFile
     { file := "", modules := [] } ["Using file: "] ChiselError.binaryOpenFailed rfl
     (io_and_decode_errors_abort.1 Unit envNoFile "" [] rfl)⟩

/-- Claim C9: the aggregate is the logical AND of the per-module
verdicts, vacuously `true` on an empty module list, and a completed run
exits `0` exactly when every verdict is `true` and `1` exactly when some
verdict is `false`. -/
theorem aggregate_and_exit_codes :
    (∀ rs : List Bool, aggregate_results rs = rs.all fun x => x)
    ∧ aggregate_results [] = true
    ∧ (∀ (M : Type) (env : Env M) (ctx : ChiselContext) (buffer : List Nat) (md : M),
      env.readFile ctx.file = some buffer → env.deserialize buffer = some md →
      chisel_execute env ctx
        = Except.ok ((module_results env.caps ctx.modules md).all fun x => x))
    ∧ (∀ (M : Type) (env : Env M) (doc : Value) (ctx : ChiselContext)
          (lines : List String) (buffer : List Nat) (md : M),
      from_ruleset doc = (Except.ok ctx, lines) →
      env.readFile ctx.file = some buffer → env.deserialize buffer = some md →
      ((chisel_run env (some doc)).1 = 0
          ↔ ∀ v ∈ module_results env.caps ctx.modules md, v = true)
        ∧ ((chisel_run env (some doc)).1 = 1
          ↔ ∃ v ∈ module_results env.caps ctx.modules md, v = false)) := by
  refine ⟨aggregate_results_eq_all, rfl, ?_, ?_⟩
  · intro M env ctx buffer md h1 h2
    simp [chisel_execute, h1, h2, aggregate_results_eq_all]
  · intro M env doc ctx lines buffer md h0 h1 h2
    have hexec : chisel_execute env ctx
        = Except.ok ((module_results env.caps ctx.modules md).all fun x => x) := by
      simp [chisel_execute, h1, h2, aggregate_results_eq_all]
    have hcode : (chisel_run env (some doc)).1
        = (if (module_results env.caps ctx.modules md).all (fun x => x) then (0 : Int) else 1) := by
      simp [chisel_run, h0, hexec]
    rw [hcode]
    cases hall : (module_results env.caps ctx.modules md).all fun x => x with
    | true =>
        simp only [List.all_eq_true] at hall
        refine ⟨⟨fun _ => hall, fun _ => by simp⟩,
          ⟨fun h => absurd h (by simp), fun h => ?_⟩⟩
        obtain ⟨v, hv, hfalse⟩ := h
        exact absurd (hall v hv) (by simp [hfalse])
    | false =>
        simp only [List.all_eq_false, Bool.not_eq_true] at hall
        refine ⟨⟨fun h => absurd h (by simp), fun h => ?_⟩,
          ⟨fun _ => hall, fun _ => by simp⟩⟩
        obtain ⟨v, hv, hfalse⟩ := hall
        exact absurd (h v hv) (by simp [hfalse])

/-- Witness for C9, on a completed run with one passing module: exit code
`0` and every verdict `true`. -/
theorem aggregate_and_exit_codes_witness :
    aggregate_results [] = true
    ∧ chisel_execute envTrue { file := "a.wasm", modules := [] } = Except.ok true
    ∧ ((chisel_run envTrue (some docOneModule)).1 = 0
        ↔ ∀ v ∈ module_results capsTrue [{ module_name := "verifyexports", preset := none }] (),
            v = true) :=
  ⟨aggregate_and_exit_codes.2.1,
   aggregate_and_exit_codes.2.2.1 Unit envTrue { file := "a.wasm", modules := [] } [] () rfl rfl,
   (aggregate_and_exit_codes.2.2.2 Unit envTrue docOneModule
     { file := "a.wasm", modules := [{ module_name := "verifyexports", preset := none }] }
     ["Using file: a.wasm", loadedLine "verifyexports" none] [] () rfl rfl rfl).1⟩

/-- Counterexample to claim C2: a run over a document with one configured
module completes (exit code `0`), yet its full printed output contains no
`verifyexports: GOOD` or `verifyexports: BAD` status line — the only
per-module line is the resolution-time `Loaded module` line. -/
theorem no_good_bad_status_lines :
    (chisel_run envTrue (some docOneModule)).2
      = ["Using file: a.wasm", loadedLine "verifyexports" none]
    ∧ (chisel_run envTrue (some docOneModule)).2.filter
        (fun l => l == "verifyexports: GOOD" || l == "verifyexports: BAD") = []
    ∧ (chisel_run envTrue (some docOneModule)).1 = 0 :=
  ⟨rfl, rfl, rfl⟩

/-- Claim C2 (amended): module execution prints nothing — a completed
run's output is exactly the resolution-time lines, and those contain one
`Loaded module` line per configured module, in document order, rather
than any `GOOD`/`BAD` status lines. -/
theorem execution_phase_prints_nothing :
    (∀ (M : Type) (env : Env M) (doc : Value) (ctx : ChiselContext)
        (lines : List String) (r : Bool),
      from_ruleset doc = (Except.ok ctx, lines) →
      chisel_execute env ctx = Except.ok r →
      chisel_run env (some doc) = ((if r then 0 else 1), lines))
    ∧ (∀ (entries : List (Value × Value)) (ms : List ModuleContext) (lines : List String),
      parse_modules entries = (Except.ok ms, lines) →
      lines = ms.map fun c => loadedLine c.module_name c.preset) := by
  refine ⟨?_, parse_modules_lines⟩
  intro M env doc ctx lines r h1 h2
  simp [chisel_run, h1, h2]

/-- Witness for C2 (amended), on the one-module document: the completed
run prints only the two resolution lines. -/
theorem execution_phase_prints_nothing_witness :
    chisel_run envTrue (some docOneModule)
      = ((if true then 0 else 1), ["Using file: a.wasm", loadedLine "verifyexports" none])
    ∧ ([loadedLine "verifyexports" none]
        = [({ module_name := "verifyexports", preset := none } : ModuleContext)].map
            fun c => loadedLine c.module_name c.preset) :=
  ⟨execution_phase_prints_nothing.1 Unit envTrue docOneModule
     { file := "a.wasm", modules := [{ module_name := "verifyexports", preset := none }] }
     ["Using file: a.wasm", loadedLine "verifyexports" none] true rfl rfl,
   execution_phase_prints_nothing.2
     [(Value.vstring "verifyexports", Value.vmapping [])]
     [{ module_name := "verifyexports", preset := none }]
     [loadedLine "verifyexports" none] rfl⟩

end Chisel
